import Mathlib

/-!
# Verification of the hostex-bridge-go synchronization and relay engine

A shallow embedding of the bridge's core components, translated from the Go
source:

* `src/database/database.go` — the SQLite-backed persistence store
  (`StorePortal`, `GetPortal`, `StoreMessage`, `GetLastMessageTimestamp`,
  `StoreUser`), modelled over explicit row lists together with the SQL
  constraints declared in `createTables` (primary keys, `UNIQUE` columns,
  `ON CONFLICT` clauses, and `MAX` aggregate semantics).
* `src/unnamed/part_001` — the `Portal` component (`CreateMatrixRoom`,
  `HandleMatrixMessage`, `BackfillMessages`, `SendMessage`).
* `src/bridge/user.go` — the command dispatcher (`User.HandleCommand` and the
  reply senders), with `strings.Fields` and `strings.ToLower` modelled
  explicitly.
* `src/bridge/bridge.go` — inbound routing (`handleMatrixMessage`) and
  management-command authorization (`handleManagementCommand`).

External effects (Matrix client calls, Hostex HTTP calls, wall-clock time)
are passed in as explicit parameters: the outcome of each network call is an
input, and the messages the code sends are collected in the output.
-/

namespace HostexBridge

/-! ## Persistence store (src/database/database.go)

Rows of the three tables created by `Database.createTables`.  Column values
bound from Go are always non-NULL strings/integers, so columns are plain
`String`/`Int` here; the one place NULL arises at runtime is the `MAX`
aggregate, modelled by `Option` below. -/

/-- A row of the `portal` table: `hostex_id TEXT PRIMARY KEY`,
`matrix_room_id TEXT UNIQUE`, plus metadata columns. -/
structure PortalRow where
  hostexID : String
  matrixRoomID : String
  name : String
  topic : String
  avatarURL : String
  encrypted : Bool
deriving DecidableEq, Repr

/-- A row of the `message` table: `PRIMARY KEY (hostex_id, matrix_event_id)`,
`matrix_event_id TEXT UNIQUE`. -/
structure MessageRow where
  hostexID : String
  matrixEventID : String
  timestamp : Int
  sender : String
  content : String
deriving DecidableEq, Repr

/-- A row of the `user` table: `mxid TEXT PRIMARY KEY`,
`hostex_id TEXT UNIQUE`. -/
structure UserRow where
  mxid : String
  hostexID : String
deriving DecidableEq, Repr

/-- The persistence store's state: the contents of the three tables. -/
structure DBState where
  portalRows : List PortalRow
  messageRows : List MessageRow
  userRows : List UserRow
deriving DecidableEq, Repr

/-- The empty store, as created by a fresh `Database.New`. -/
def emptyDB : DBState := ⟨[], [], []⟩

/-- Errors surfaced by the SQL layer: a `UNIQUE`/primary-key constraint
violation on `INSERT`, or `database/sql`'s scan error when a NULL column
value is scanned into a Go `int64`. -/
inductive DBError where
  | uniqueViolation
  | nullScan
deriving DecidableEq, Repr

/-- `Database.GetPortal`: `SELECT matrix_room_id FROM portal WHERE
hostex_id = ?`; `sql.ErrNoRows` is mapped to the empty room id.  Transport
errors are outside the model, so the error return is elided. -/
def GetPortal (db : DBState) (hostexID : String) : String :=
  match db.portalRows.find? (fun r => r.hostexID = hostexID) with
  | none => ""
  | some r => r.matrixRoomID

/-- `Database.StorePortal`: `INSERT ... ON CONFLICT (hostex_id) DO UPDATE`.
A conflict on `hostex_id` updates that row in place; a conflict of the
(inserted or updated) `matrix_room_id` with a *different* row's `UNIQUE`
column is a constraint error. -/
def StorePortal (db : DBState) (hostexID roomID name topic avatarURL : String)
    (encrypted : Bool) : Except DBError DBState :=
  if ∃ r ∈ db.portalRows, r.hostexID = hostexID then
    if ∃ r ∈ db.portalRows, r.hostexID ≠ hostexID ∧ r.matrixRoomID = roomID then
      .error .uniqueViolation
    else
      .ok { db with portalRows := db.portalRows.map (fun r =>
              if r.hostexID = hostexID then
                ⟨hostexID, roomID, name, topic, avatarURL, encrypted⟩
              else r) }
  else
    if ∃ r ∈ db.portalRows, r.matrixRoomID = roomID then
      .error .uniqueViolation
    else
      .ok { db with portalRows :=
              db.portalRows ++ [⟨hostexID, roomID, name, topic, avatarURL, encrypted⟩] }

/-- `Database.StoreMessage`: a plain `INSERT INTO message` with no
`ON CONFLICT` clause, so a duplicate `(hostex_id, matrix_event_id)` primary
key or duplicate `matrix_event_id` (`UNIQUE`) makes the insert fail. -/
def StoreMessage (db : DBState) (hostexID eventID : String) (timestamp : Int)
    (sender content : String) : Except DBError DBState :=
  if ∃ r ∈ db.messageRows, r.hostexID = hostexID ∧ r.matrixEventID = eventID then
    .error .uniqueViolation
  else if ∃ r ∈ db.messageRows, r.matrixEventID = eventID then
    .error .uniqueViolation
  else
    .ok { db with messageRows :=
            db.messageRows ++ [⟨hostexID, eventID, timestamp, sender, content⟩] }

/-- The value of `SELECT MAX(timestamp) FROM message WHERE hostex_id = ?`:
an aggregate query always yields exactly one row, whose single column is
NULL (`none`) when no message row matches. -/
def maxTimestamp (db : DBState) (hostexID : String) : Option Int :=
  ((db.messageRows.filter (fun r => r.hostexID = hostexID)).map
    (fun r => r.timestamp)).max?

/-- `Database.GetLastMessageTimestamp`: scans the `MAX(timestamp)` result
into an `int64`.  Because the aggregate query always returns one row, the
`sql.ErrNoRows` branch in the Go source is unreachable; when no message row
matches, the column is NULL and `Scan` into `int64` fails, so the call
returns an error instead of the zero time. -/
def GetLastMessageTimestamp (db : DBState) (hostexID : String) :
    Except DBError Int :=
  match maxTimestamp db hostexID with
  | some t => .ok t
  | none => .error .nullScan

/-- `Database.StoreUser`: `INSERT ... ON CONFLICT (mxid) DO UPDATE`; a
conflict of `hostex_id` with a different row's `UNIQUE` column is a
constraint error. -/
def StoreUser (db : DBState) (mxid hostexID : String) : Except DBError DBState :=
  if ∃ r ∈ db.userRows, r.mxid = mxid then
    if ∃ r ∈ db.userRows, r.mxid ≠ mxid ∧ r.hostexID = hostexID then
      .error .uniqueViolation
    else
      .ok { db with userRows := db.userRows.map (fun r =>
              if r.mxid = mxid then ⟨mxid, hostexID⟩ else r) }
  else
    if ∃ r ∈ db.userRows, r.hostexID = hostexID then
      .error .uniqueViolation
    else
      .ok { db with userRows := db.userRows ++ [⟨mxid, hostexID⟩] }

/-! ## Hostex API and Matrix event model -/

/-- A Hostex remote message (`hostexapi.Message`); the timestamp is in
seconds, as stored by `StoreMessage` via `timestamp.Unix()`. -/
structure RMessage where
  id : String
  content : String
  timestamp : Int
  sender : String
deriving DecidableEq, Repr

/-- An inbound Matrix event as delivered by the syncer: its room, sender,
event type (`evt.Type`, e.g. `"m.room.message"`), whether
`evt.Content.Parsed` is a `*event.MessageEventContent`, the content's
`msgtype` (e.g. `"m.text"`, `"m.image"` — present in the event but never
inspected by the bridge), the body, and the event id. -/
structure MEvent where
  roomID : String
  sender : String
  evtType : String
  parsedIsMessage : Bool
  msgType : String
  body : String
  eventID : String
deriving DecidableEq, Repr

/-- A call to `HostexClient.SendMessage(conversationID, text)` — one
attempted send to the remote service. -/
structure RemoteSend where
  conversationID : String
  text : String
deriving DecidableEq, Repr

/-- A message sent into a Matrix room via
`MatrixClient.SendMessageEvent(roomID, event.EventMessage, content)`:
the room, the content's msgtype, and the body. -/
structure SentMsg where
  roomID : String
  msgType : String
  body : String
deriving DecidableEq, Repr

/-! ## Portal (src/unnamed/part_001) -/

/-- The in-memory `Portal` struct: conversation id, assigned room id
(`""` before assignment, as in Go's zero value), and the cached
conversation snapshot fields used for room naming. -/
structure PortalM where
  ID : String
  RoomID : String
  infoChannelType : String
  infoGuestName : String
  infoPropertyTitle : String
deriving DecidableEq, Repr

/-- Result of one `Portal.CreateMatrixRoom` invocation: the updated portal,
the updated store, the list of rooms the Matrix client was asked to create
during the call, and whether the call returned `nil` (no error). -/
structure CreateRoomResult where
  portal : PortalM
  db : DBState
  created : List String
  ok : Bool
deriving DecidableEq, Repr

/-- `Portal.CreateMatrixRoom`.  Returns immediately when the in-memory
`RoomID` is set; otherwise consults `DB.GetPortal` and adopts a persisted
room id; otherwise asks the Matrix client to create a room (`newRoom` is
the room id the homeserver allocates), sets `p.RoomID`, and persists the
mapping with `DB.StorePortal`.  A `StorePortal` failure returns an error
with `p.RoomID` already set.  The optional personal-space attachment is
log-only (a failure there is not fatal) and carries no state relevant to
the claims, so it is elided. -/
def CreateMatrixRoom (p : PortalM) (db : DBState) (newRoom : String) :
    CreateRoomResult :=
  if p.RoomID ≠ "" then
    ⟨p, db, [], true⟩
  else
    let existing := GetPortal db p.ID
    if existing ≠ "" then
      ⟨{ p with RoomID := existing }, db, [], true⟩
    else
      let name := p.infoChannelType ++ " - " ++ p.infoGuestName
      let topic := "Hostex conversation for " ++ p.infoPropertyTitle
      let p' := { p with RoomID := newRoom }
      match StorePortal db p.ID newRoom name topic "" false with
      | .ok db' => ⟨p', db', [newRoom], true⟩
      | .error _ => ⟨p', db, [newRoom], false⟩

/-- `Portal.HandleMatrixMessage`.  Non-`m.room.message` events and events
whose content is not a parsed `MessageEventContent` are dropped.  Otherwise
the body is sent to Hostex (`sendOk` is the outcome of that network call);
on failure the handler logs and returns — reaching `DB.StoreMessage` only
after a successful send.  A store failure is logged and ignored.  `now` is
`time.Now()` in seconds.  Returns the attempted remote sends and the
resulting store. -/
def PortalHandleMatrixMessage (p : PortalM) (db : DBState) (evt : MEvent)
    (sendOk : Bool) (now : Int) : List RemoteSend × DBState :=
  if evt.evtType ≠ "m.room.message" then
    ([], db)
  else if ¬ evt.parsedIsMessage then
    ([], db)
  else
    let attempt : RemoteSend := ⟨p.ID, evt.body⟩
    if sendOk then
      match StoreMessage db p.ID evt.eventID now evt.sender evt.body with
      | .ok db' => ([attempt], db')
      | .error _ => ([attempt], db)
    else
      ([attempt], db)

deriving instance DecidableEq for Except

/-- Result of one `Portal.SendMessage` invocation (remote → Matrix relay of
one backfilled message): the IANA zone name used to render the timestamp,
the Matrix send that was attempted, the updated store, and the returned
error, if any. -/
structure SendMessageResult where
  usedLoc : String
  matrixSends : List SentMsg
  db : DBState
  result : Except String Unit
deriving DecidableEq, Repr

/-- `Portal.SendMessage`.  `time.LoadLocation(cfg.Timezone)` is modelled by
the validity flag `tzValid`: on failure the error is logged and `loc` falls
back to `time.UTC`.  The Matrix send's outcome is `matrixRes` (`some
eventID` on success); on success the message row is stored (a store failure
is logged, and the call still returns `nil`). -/
def PortalSendMessage (p : PortalM) (db : DBState) (msg : RMessage)
    (cfgTimezone : String) (tzValid : Bool) (matrixRes : Option String) :
    SendMessageResult :=
  let loc := if tzValid then cfgTimezone else "UTC"
  let send : SentMsg := ⟨p.RoomID, "m.text", msg.content⟩
  match matrixRes with
  | none => ⟨loc, [send], db, .error "failed to send Matrix message"⟩
  | some eventID =>
      match StoreMessage db p.ID eventID msg.timestamp msg.sender msg.content with
      | .ok db' => ⟨loc, [send], db', .ok ()⟩
      | .error _ => ⟨loc, [send], db, .ok ()⟩

/-- The loop body of `Portal.BackfillMessages`: relay each fetched message
via `Portal.SendMessage`, logging (and not propagating) per-message
failures.  `matrixRes` gives each message's Matrix-send outcome. -/
def backfillLoop (p : PortalM) (cfgTimezone : String) (tzValid : Bool) :
    DBState → List RMessage → List (Option String) → DBState × List SentMsg
  | db, [], _ => (db, [])
  | db, msg :: msgs, ress =>
      let r := PortalSendMessage p db msg cfgTimezone tzValid (ress.headD none)
      let rest := backfillLoop p cfgTimezone tzValid r.db msgs (ress.tailD [])
      (rest.1, r.matrixSends ++ rest.2)

/-- `Portal.BackfillMessages`.  Reads the store's cursor with
`DB.GetLastMessageTimestamp` (an error aborts the backfill); fetches up to
10 remote messages newer than the cursor (`fetch since limit` is the Hostex
client's `GetMessages` response) and relays each in order. -/
def BackfillMessages (p : PortalM) (db : DBState)
    (fetch : Int → Nat → List RMessage) (cfgTimezone : String) (tzValid : Bool)
    (matrixRes : List (Option String)) :
    Except DBError (DBState × List SentMsg) :=
  match GetLastMessageTimestamp db p.ID with
  | .error e => .error e
  | .ok last =>
      .ok (backfillLoop p cfgTimezone tzValid db (fetch last 10) matrixRes)

/-! ## Command dispatcher (src/bridge/user.go) -/

/-- Go's `unicode.IsSpace` on the Latin-1 range (the range `strings.Fields`
distinguishes in practice; command bodies are ASCII): space, `\t`, `\n`,
vertical tab, form feed, `\r`, NEL (U+0085) and NBSP (U+00A0). -/
def goIsSpace (c : Char) : Bool :=
  c = ' ' ∨ c = '\t' ∨ c = '\n' ∨ c = (Char.ofNat 11) ∨ c = (Char.ofNat 12) ∨
    c = '\r' ∨ c = (Char.ofNat 133) ∨ c = (Char.ofNat 160)

/-- Worker for `goFields`: accumulates the current (reversed) word while
scanning the character list. -/
def goFieldsAux : List Char → List Char → List (List Char)
  | [], cur => if cur.isEmpty then [] else [cur.reverse]
  | c :: cs, cur =>
      if goIsSpace c then
        if cur.isEmpty then goFieldsAux cs []
        else cur.reverse :: goFieldsAux cs []
      else goFieldsAux cs (c :: cur)

/-- `strings.Fields`: split around each maximal run of white space,
returning the (possibly empty) list of non-empty substrings. -/
def goFields (s : String) : List String :=
  (goFieldsAux s.data []).map (fun w => String.mk w)

/-- `strings.ToLower` on one character (ASCII case mapping; the command
literals compared against are ASCII). -/
def goLowerChar (c : Char) : Char :=
  if 'A' ≤ c ∧ c ≤ 'Z' then Char.ofNat (c.toNat + 32) else c

/-- `strings.ToLower`. -/
def goLower (s : String) : String :=
  String.mk (s.data.map goLowerChar)

/-- The in-memory bridge state read by the command handlers: the portal
registry (`portalsByID`, an association list keyed by conversation id), the
configured timezone, whether the Hostex client pointer is non-nil, the
configured admin user id, the management room, and the pre-rendered
RFC3339 timestamps the handlers format (`lastPollTime`, and each portal's
`LastMessageAt` via `portalLastActivity`).  Time formatting itself is
outside the model, so the rendered strings are state. -/
structure BridgeState where
  managementRoom : String
  adminUserID : String
  portalsByID : List (String × PortalM)
  timezone : String
  hostexClientNotNil : Bool
  lastPollTimeStr : String
  portalLastActivity : String → String
deriving Inhabited

/-- `User.sendHelpMessage`'s notice. -/
def helpMessage (roomID : String) : SentMsg :=
  ⟨roomID, "m.notice",
    "Available commands:\n!help - Show this help message\n!status - Show bridge status\n!list - List active conversations\n!sync - Force sync conversations from Hostex"⟩

/-- `User.sendStatusMessage`'s notice: counts portals with an assigned room
and formats connectivity, count, last poll time and timezone. -/
def statusMessage (b : BridgeState) (roomID : String) : SentMsg :=
  let bridgedRooms := (b.portalsByID.filter (fun pr => pr.2.RoomID ≠ "")).length
  ⟨roomID, "m.notice",
    "Bridge Status:\nConnected to Hostex: " ++
      (if b.hostexClientNotNil then "true" else "false") ++
      "\nBridged conversations: " ++ toString bridgedRooms ++
      "\nLast poll time: " ++ b.lastPollTimeStr ++
      "\nTimezone: " ++ b.timezone⟩

/-- `User.listConversations`'s notice: one entry per portal with an
assigned room. -/
def listMessage (b : BridgeState) (roomID : String) : SentMsg :=
  let body := b.portalsByID.foldl (fun acc pr =>
    if pr.2.RoomID ≠ "" then
      acc ++ "- " ++ pr.2.infoGuestName ++ " (" ++ pr.2.infoChannelType ++
        ")\n  Room: " ++ pr.2.RoomID ++ "\n  Last activity: " ++
        b.portalLastActivity pr.1 ++ "\n\n"
    else acc) "Active conversations:\n\n"
  ⟨roomID, "m.notice", body⟩

/-- `User.sendUnknownCommandMessage`'s notice. -/
def unknownCommandMessage (roomID : String) : SentMsg :=
  ⟨roomID, "m.notice", "Unknown command. Type !help for a list of available commands."⟩

/-- The two notices of `User.forceSyncConversations`: the immediate
"forcing sync" notice, and the "sync complete" notice sent by the spawned
task once `pollHostex` returns (the poll cycle's own portal-room traffic is
not a command reply and is not modelled here). -/
def forceSyncMessages (roomID : String) : List SentMsg :=
  [⟨roomID, "m.notice", "Forcing sync of conversations from Hostex..."⟩,
   ⟨roomID, "m.notice", "Sync complete. Use !list to see updated conversations."⟩]

/-- `User.HandleCommand`: split the body into whitespace-delimited tokens
(`strings.Fields`), return on an empty token list, otherwise dispatch on
the lower-cased first token, falling through to the unknown-command reply.
Returns the list of reply messages sent into `roomID`. -/
def HandleCommand (b : BridgeState) (roomID : String) (body : String) :
    List SentMsg :=
  match goFields body with
  | [] => []
  | tok :: _ =>
      let command := goLower tok
      if command = "!help" then [helpMessage roomID]
      else if command = "!status" then [statusMessage b roomID]
      else if command = "!list" then [listMessage b roomID]
      else if command = "!sync" then forceSyncMessages roomID
      else [unknownCommandMessage roomID]

/-! ## Bridge routing (src/bridge/bridge.go) -/

/-- Where `Bridge.handleMatrixMessage` routes an inbound event. -/
inductive Routing where
  /-- The event's room is the management room: handed to
  `handleManagementCommand`. -/
  | management
  /-- No portal found: dropped with the "Received message for unknown
  portal" warning. -/
  | droppedUnknownPortal
  /-- Delivered to `portal.HandleMatrixMessage` for the portal registered
  under this conversation id. -/
  | delivered (conversationID : String)
deriving DecidableEq, Repr

/-- `Bridge.handleMatrixMessage`: management-room events go to the command
path; otherwise the handler looks up `b.portalsByID[evt.RoomID.String()]` —
the registry keyed by *conversation id*, probed with the event's *room
id* — and drops the event with a warning when the lookup misses. -/
def routeInbound (b : BridgeState) (evt : MEvent) : Routing :=
  if evt.roomID = b.managementRoom then .management
  else
    match b.portalsByID.find? (fun pr => pr.1 = evt.roomID) with
    | none => .droppedUnknownPortal
    | some pr => .delivered pr.1

/-- `Bridge.handleManagementCommand`: events from senders other than the
configured admin are logged and ignored; events whose content is not a
parsed `MessageEventContent` are ignored; otherwise the body goes to
`User.HandleCommand` (the dispatcher is created on first sight — it holds
no state that affects replies).  Returns the replies sent. -/
def handleManagementCommand (b : BridgeState) (evt : MEvent) : List SentMsg :=
  if evt.sender ≠ b.adminUserID then []
  else if ¬ evt.parsedIsMessage then []
  else HandleCommand b evt.roomID evt.body

/-! ## Supporting lemmas about the store -/

/-- Updating the row with key `hid` makes `find?` on that key return the
new row. -/
theorem find?_map_update (rows : List PortalRow) (hid : String) (new : PortalRow)
    (hnew : new.hostexID = hid) (hmem : ∃ r ∈ rows, r.hostexID = hid) :
    (rows.map (fun r => if r.hostexID = hid then new else r)).find?
      (fun r => r.hostexID = hid) = some new := by
  induction rows with
  | nil => simp at hmem
  | cons a l ih =>
      by_cases ha : a.hostexID = hid
      · simp [ha, hnew]
      · have hmem' : ∃ r ∈ l, r.hostexID = hid := by
          rcases hmem with ⟨r, hr, hkey⟩
          rcases List.mem_cons.mp hr with rfl | hr'
          · exact absurd hkey ha
          · exact ⟨r, hr', hkey⟩
        simpa [ha] using ih hmem'

/-- Appending a row whose key is absent from `rows` makes `find?` on that
key return the appended row. -/
theorem find?_append_single (rows : List PortalRow) (hid : String) (new : PortalRow)
    (hnew : new.hostexID = hid) (hmem : ¬ ∃ r ∈ rows, r.hostexID = hid) :
    (rows ++ [new]).find? (fun r => r.hostexID = hid) = some new := by
  rw [List.find?_append]
  have hnone : rows.find? (fun r => decide (r.hostexID = hid)) = none := by
    rw [List.find?_eq_none]
    intro x hx
    simpa using fun h => hmem ⟨x, hx, h⟩
  simp [hnone, hnew]

/-- After a successful `StorePortal`, `GetPortal` on the stored key returns
the stored room id — the persisted mapping is in place as soon as the write
returns. -/
theorem getPortal_storePortal (db : DBState) (hid rid nm tp av : String)
    (enc : Bool) (db' : DBState)
    (h : StorePortal db hid rid nm tp av enc = .ok db') :
    GetPortal db' hid = rid := by
  unfold StorePortal at h
  split at h
  case isTrue hmem =>
    split at h
    · exact absurd h (by simp)
    · cases h
      unfold GetPortal
      rw [find?_map_update db.portalRows hid ⟨hid, rid, nm, tp, av, enc⟩ rfl hmem]
  case isFalse hmem =>
    split at h
    · exact absurd h (by simp)
    · cases h
      unfold GetPortal
      rw [find?_append_single db.portalRows hid ⟨hid, rid, nm, tp, av, enc⟩ rfl hmem]

/-! ## Claim theorems -/

/-- C2: For every conversationID, across repeated invocations of
`Portal.CreateMatrixRoom` — including two consecutive calls for the same
conversationID — room creation fires at most once: a set in-memory roomID
or a persisted (conversationID → roomID) mapping found in the store
suppresses creation, and a newly created room's mapping is persisted
immediately after creation (whenever the call returns without error). -/
theorem createMatrixRoom_at_most_once (p : PortalM) (db : DBState)
    (r1 r2 : String) (h1 : r1 ≠ "") :
    ((CreateMatrixRoom p db r1).created.length +
      (CreateMatrixRoom (CreateMatrixRoom p db r1).portal
        (CreateMatrixRoom p db r1).db r2).created.length ≤ 1) ∧
    (p.RoomID ≠ "" → (CreateMatrixRoom p db r1).created = []) ∧
    (GetPortal db p.ID ≠ "" → (CreateMatrixRoom p db r1).created = []) ∧
    (∀ r, (CreateMatrixRoom p db r1).created = [r] →
      (CreateMatrixRoom p db r1).ok = true →
      GetPortal (CreateMatrixRoom p db r1).db p.ID = r) := by
  by_cases hR : p.RoomID = ""
  · by_cases hG : GetPortal db p.ID = ""
    · -- create path: room created once, then suppressed by the set RoomID
      cases hs : StorePortal db p.ID r1 (p.infoChannelType ++ " - " ++ p.infoGuestName)
          ("Hostex conversation for " ++ p.infoPropertyTitle) "" false with
      | ok db' =>
          have e1 : CreateMatrixRoom p db r1 = ⟨{ p with RoomID := r1 }, db', [r1], true⟩ := by
            unfold CreateMatrixRoom
            simp [hR, hG, hs]
          have e2 : CreateMatrixRoom { p with RoomID := r1 } db' r2 =
              ⟨{ p with RoomID := r1 }, db', [], true⟩ := by
            unfold CreateMatrixRoom
            simp [h1]
          rw [e1]
          refine ⟨?_, ?_, ?_, ?_⟩
          · simp [e2]
          · intro hc; exact absurd hR (by simpa using hc)
          · intro hc; exact absurd hG (by simpa using hc)
          · intro r hr _
            have : r = r1 := by simpa using hr.symm
            subst this
            exact getPortal_storePortal db p.ID r _ _ _ _ db' hs
      | error e =>
          have e1 : CreateMatrixRoom p db r1 = ⟨{ p with RoomID := r1 }, db, [r1], false⟩ := by
            unfold CreateMatrixRoom
            simp [hR, hG, hs]
          have e2 : CreateMatrixRoom { p with RoomID := r1 } db r2 =
              ⟨{ p with RoomID := r1 }, db, [], true⟩ := by
            unfold CreateMatrixRoom
            simp [h1]
          rw [e1]
          refine ⟨?_, ?_, ?_, ?_⟩
          · simp [e2]
          · intro hc; exact absurd hR (by simpa using hc)
          · intro hc; exact absurd hG (by simpa using hc)
          · intro r _ hok; exact absurd hok (by simp)
    · -- recovery path: the persisted mapping is adopted, nothing is created
      have e1 : CreateMatrixRoom p db r1 =
          ⟨{ p with RoomID := GetPortal db p.ID }, db, [], true⟩ := by
        unfold CreateMatrixRoom
        simp [hR, hG]
      have e2 : CreateMatrixRoom { p with RoomID := GetPortal db p.ID } db r2 =
          ⟨{ p with RoomID := GetPortal db p.ID }, db, [], true⟩ := by
        unfold CreateMatrixRoom
        simp [hG]
      rw [e1]
      refine ⟨by simp [e2], fun _ => rfl, fun _ => rfl, ?_⟩
      intro r hr _
      exact absurd hr (by simp)
  · -- in-memory RoomID already set: both calls are no-ops
    have e1 : CreateMatrixRoom p db r1 = ⟨p, db, [], true⟩ := by
      unfold CreateMatrixRoom
      simp [hR]
    have e2 : CreateMatrixRoom p db r2 = ⟨p, db, [], true⟩ := by
      unfold CreateMatrixRoom
      simp [hR]
    rw [e1]
    refine ⟨by simp [e2], fun _ => rfl, fun _ => rfl, ?_⟩
    intro r hr _
    exact absurd hr (by simp)

/-! ### Concrete states used by witnesses and counterexamples -/

/-- A fresh portal for conversation `"c1"` with no room assigned yet. -/
def wPortal : PortalM := ⟨"c1", "", "airbnb", "Alice", "Seaside Cottage"⟩

/-- The portal for `"c1"` after its room `"!r1:example.org"` was assigned. -/
def boundPortal : PortalM := ⟨"c1", "!r1:example.org", "airbnb", "Alice", "Seaside Cottage"⟩

/-- A bridge whose registry holds `boundPortal` under its conversation id,
with management room `"!mgmt:example.org"` and admin `"@admin:example.org"`. -/
def wBridge : BridgeState :=
  ⟨"!mgmt:example.org", "@admin:example.org", [("c1", boundPortal)],
    "America/Los_Angeles", true, "0001-01-01T00:00:00Z", fun _ => "2023-11-14T22:13:20Z"⟩

/-- Witness for `createMatrixRoom_at_most_once` at a fresh portal, the
empty store and room id `"!new:example.org"`. -/
theorem createMatrixRoom_at_most_once_witness :
    ("!new:example.org" : String) ≠ "" ∧
    (((CreateMatrixRoom wPortal emptyDB "!new:example.org").created.length +
      (CreateMatrixRoom (CreateMatrixRoom wPortal emptyDB "!new:example.org").portal
        (CreateMatrixRoom wPortal emptyDB "!new:example.org").db
        "!other:example.org").created.length ≤ 1) ∧
    (wPortal.RoomID ≠ "" → (CreateMatrixRoom wPortal emptyDB "!new:example.org").created = []) ∧
    (GetPortal emptyDB wPortal.ID ≠ "" →
      (CreateMatrixRoom wPortal emptyDB "!new:example.org").created = []) ∧
    (∀ r, (CreateMatrixRoom wPortal emptyDB "!new:example.org").created = [r] →
      (CreateMatrixRoom wPortal emptyDB "!new:example.org").ok = true →
      GetPortal (CreateMatrixRoom wPortal emptyDB "!new:example.org").db wPortal.ID = r)) :=
  ⟨by decide,
    createMatrixRoom_at_most_once wPortal emptyDB "!new:example.org" "!other:example.org"
      (by decide)⟩

/-- C1 (code bug): an inbound event in a non-control room is routed by
probing the portal registry — which is keyed by *conversation id* — with
the event's *room id*, so the event for `boundPortal`'s own room is dropped
with the unknown-portal warning even though a registered portal's assigned
`RoomID` equals the event's room.  The claim (and spec §4.1) says the event
is delivered to the portal whose `roomID` equals the event's room and
dropped exactly when no such portal exists. -/
theorem routeInbound_drops_own_portal_room :
    routeInbound wBridge ⟨"!r1:example.org", "@keith:example.org", "m.room.message",
        true, "m.text", "hello", "$evt1"⟩ = .droppedUnknownPortal ∧
    ("!r1:example.org" : String) ≠ wBridge.managementRoom ∧
    (wBridge.portalsByID.any (fun pr => pr.2.RoomID = "!r1:example.org")) = true := by
  refine ⟨?_, by decide, by decide⟩
  rfl

/-- A parsed inbound text-message event in `boundPortal`'s room. -/
def textEvt : MEvent :=
  ⟨"!r1:example.org", "@keith:example.org", "m.room.message", true, "m.text",
    "hello guest", "$evt2"⟩

/-- C3 counterexample: when the Hostex send fails, `Portal.HandleMatrixMessage`
logs and returns *before* `DB.StoreMessage`, so no Message row is written —
contradicting the claim that the row is still written best-effort after a
failed send.  Exactly one send was attempted (dropped, no retry). -/
theorem handleMatrixMessage_failed_send_writes_no_row :
    (PortalHandleMatrixMessage boundPortal emptyDB textEvt false 100).1 =
      [⟨"c1", "hello guest"⟩] ∧
    (PortalHandleMatrixMessage boundPortal emptyDB textEvt false 100).2.messageRows = [] := by
  decide

/-- C3 (amended): for every chat-to-remote relay in which the remote
send-message call fails, exactly one send is attempted and the event is
dropped without retry, and **no** Message row is written — the store is
returned unchanged (rows are written only after a successful send). -/
theorem handleMatrixMessage_failed_send (p : PortalM) (db : DBState)
    (evt : MEvent) (now : Int) (htype : evt.evtType = "m.room.message")
    (hparsed : evt.parsedIsMessage = true) :
    PortalHandleMatrixMessage p db evt false now = ([⟨p.ID, evt.body⟩], db) := by
  unfold PortalHandleMatrixMessage
  simp [htype, hparsed]

/-- Witness for `handleMatrixMessage_failed_send` at `textEvt`. -/
theorem handleMatrixMessage_failed_send_witness :
    textEvt.evtType = "m.room.message" ∧ textEvt.parsedIsMessage = true ∧
    PortalHandleMatrixMessage boundPortal emptyDB textEvt false 100 =
      ([⟨"c1", "hello guest"⟩], emptyDB) :=
  ⟨rfl, rfl, handleMatrixMessage_failed_send boundPortal emptyDB textEvt 100 rfl rfl⟩

/-- C7 counterexample: an `m.room.message` event whose msgtype is
`m.image` — not a text message — still has its body forwarded to the
Hostex send-message operation, because `Portal.HandleMatrixMessage` checks
only `evt.Type` and never the content's msgtype. -/
theorem handleMatrixMessage_forwards_image :
    (⟨"!r1:example.org", "@keith:example.org", "m.room.message", true, "m.image",
        "cat.jpg", "$evt3"⟩ : MEvent).msgType ≠ "m.text" ∧
    (PortalHandleMatrixMessage boundPortal emptyDB
      ⟨"!r1:example.org", "@keith:example.org", "m.room.message", true, "m.image",
        "cat.jpg", "$evt3"⟩ true 100).1 = [⟨"c1", "cat.jpg"⟩] := by
  decide

/-- C7 (amended): `Portal.HandleMatrixMessage` forwards the body to the
remote send-message operation keyed by conversationID exactly when the
event's type is `m.room.message` and its content parsed as message content,
regardless of the content's msgtype (text, notice, image, ...); every other
event triggers no remote send. -/
theorem handleMatrixMessage_send_condition (p : PortalM) (db : DBState)
    (evt : MEvent) (sendOk : Bool) (now : Int) :
    (PortalHandleMatrixMessage p db evt sendOk now).1 =
      if evt.evtType = "m.room.message" ∧ evt.parsedIsMessage = true then
        [⟨p.ID, evt.body⟩]
      else [] := by
  unfold PortalHandleMatrixMessage
  by_cases htype : evt.evtType = "m.room.message"
  · by_cases hparsed : evt.parsedIsMessage = true
    · cases hsend : sendOk
      · simp [htype, hparsed]
      · cases hst : StoreMessage db p.ID evt.eventID now evt.sender evt.body <;>
          simp [htype, hparsed, hst]
    · simp [htype, hparsed]
  · simp [htype]

/-- C4 (code bug): a fresh backfill for a conversation with no stored
messages fails instead of treating the absent cursor as the epoch:
`SELECT MAX(timestamp)` returns one row whose column is NULL, the scan into
`int64` errors (the `sql.ErrNoRows` branch never fires for an aggregate),
and `Portal.BackfillMessages` aborts with that error before fetching
anything. -/
theorem backfill_fresh_conversation_fails :
    emptyDB.messageRows = [] ∧
    BackfillMessages boundPortal emptyDB
      (fun _ _ => [⟨"m1", "hi", 1700000000, "Alice"⟩]) "America/Los_Angeles" true
      [some "$evt4"] = .error .nullScan :=
  ⟨rfl, rfl⟩

/-- C9: if the configured timezone string is invalid
(`time.LoadLocation` fails), `Portal.SendMessage` renders the timestamp in
UTC, the relay still succeeds whenever the Matrix send succeeds, and the
call's outcome is the same as with a valid timezone — the invalid zone
never produces an error by itself. -/
theorem sendMessage_invalid_timezone_utc (p : PortalM) (db : DBState)
    (msg : RMessage) (cfgTimezone : String) (matrixRes : Option String) :
    (PortalSendMessage p db msg cfgTimezone false matrixRes).usedLoc = "UTC" ∧
    (∀ e, matrixRes = some e →
      (PortalSendMessage p db msg cfgTimezone false matrixRes).result = .ok ()) ∧
    (PortalSendMessage p db msg cfgTimezone false matrixRes).result =
      (PortalSendMessage p db msg cfgTimezone true matrixRes).result := by
  unfold PortalSendMessage
  cases matrixRes with
  | none => exact ⟨rfl, by simp, rfl⟩
  | some e =>
      cases hst : StoreMessage db p.ID e msg.timestamp msg.sender msg.content <;>
        simp [hst]

/-- Witness for `sendMessage_invalid_timezone_utc` at a concrete message
with a successful Matrix send. -/
theorem sendMessage_invalid_timezone_utc_witness :
    (PortalSendMessage boundPortal emptyDB ⟨"m1", "hi", 1700000000, "Alice"⟩
        "Not/A_Zone" false (some "$evt5")).usedLoc = "UTC" ∧
    (PortalSendMessage boundPortal emptyDB ⟨"m1", "hi", 1700000000, "Alice"⟩
        "Not/A_Zone" false (some "$evt5")).result = .ok () :=
  ⟨(sendMessage_invalid_timezone_utc boundPortal emptyDB
      ⟨"m1", "hi", 1700000000, "Alice"⟩ "Not/A_Zone" (some "$evt5")).1,
   (sendMessage_invalid_timezone_utc boundPortal emptyDB
      ⟨"m1", "hi", 1700000000, "Alice"⟩ "Not/A_Zone" (some "$evt5")).2.1 "$evt5" rfl⟩

/-- An admin `!sync` command event in the management room. -/
def syncEvt : MEvent :=
  ⟨"!mgmt:example.org", "@admin:example.org", "m.room.message", true, "m.text",
    "!sync", "$evt6"⟩

/-- An admin `!help` command event in the management room. -/
def helpEvt : MEvent :=
  ⟨"!mgmt:example.org", "@admin:example.org", "m.room.message", true, "m.text",
    "!help", "$evt7"⟩

/-- C6 counterexample: `!sync` is a known command, yet the admin's `!sync`
produces two notices (the "forcing sync" notice and the "sync complete"
notice sent when the spawned poll finishes), not exactly one reply. -/
theorem managementCommand_sync_two_replies :
    (handleManagementCommand wBridge syncEvt).length = 2 := by
  decide

/-- C6 (amended): a control-room command from a non-admin identity produces
zero chat-network sends; from the admin identity, `!help`, `!status` and
`!list` each produce exactly one reply, while `!sync` produces two notices
(start and completion). -/
theorem managementCommand_reply_counts (b : BridgeState) (evt : MEvent) :
    (evt.sender ≠ b.adminUserID → handleManagementCommand b evt = []) ∧
    (∀ tok rest, evt.sender = b.adminUserID → evt.parsedIsMessage = true →
      goFields evt.body = tok :: rest →
      ((goLower tok = "!help" ∨ goLower tok = "!status" ∨ goLower tok = "!list") →
        (handleManagementCommand b evt).length = 1) ∧
      (goLower tok = "!sync" → (handleManagementCommand b evt).length = 2)) := by
  constructor
  · intro h
    unfold handleManagementCommand
    simp [h]
  · intro tok rest hs hp hf
    have he : handleManagementCommand b evt = HandleCommand b evt.roomID evt.body := by
      unfold handleManagementCommand
      simp [hs, hp]
    rw [he]
    unfold HandleCommand
    rw [hf]
    constructor
    · rintro (h | h | h) <;> simp [h]
    · intro h
      simp [h, forceSyncMessages]

/-- Witness for `managementCommand_reply_counts`: the non-admin branch at a
foreign sender, and the admin `!help` branch, at concrete events. -/
theorem managementCommand_reply_counts_witness :
    (handleManagementCommand wBridge
      ⟨"!mgmt:example.org", "@mallory:example.org", "m.room.message", true, "m.text",
        "!status", "$evt8"⟩ = []) ∧
    (handleManagementCommand wBridge helpEvt).length = 1 :=
  ⟨(managementCommand_reply_counts wBridge
      ⟨"!mgmt:example.org", "@mallory:example.org", "m.room.message", true, "m.text",
        "!status", "$evt8"⟩).1 (by decide),
   ((managementCommand_reply_counts wBridge helpEvt).2 "!help" [] rfl rfl
      (by decide)).1 (Or.inl (by decide))⟩

/-- C8: command dispatch keys on the first whitespace-delimited token,
lower-cased; for every body whose lowered first token is none of `!help`,
`!status`, `!list`, `!sync`, exactly one unknown-command reply notice is
sent into the room the command was issued in. -/
theorem handleCommand_unknown (b : BridgeState) (roomID body tok : String)
    (rest : List String) (hf : goFields body = tok :: rest)
    (h1 : goLower tok ≠ "!help") (h2 : goLower tok ≠ "!status")
    (h3 : goLower tok ≠ "!list") (h4 : goLower tok ≠ "!sync") :
    HandleCommand b roomID body = [unknownCommandMessage roomID] := by
  unfold HandleCommand
  rw [hf]
  simp [h1, h2, h3, h4]

/-- Witness for `handleCommand_unknown` at body `"!foobar"`. -/
theorem handleCommand_unknown_witness :
    goFields "!foobar" = ["!foobar"] ∧
    HandleCommand wBridge "!mgmt:example.org" "!foobar" =
      [unknownCommandMessage "!mgmt:example.org"] :=
  ⟨by decide,
    handleCommand_unknown wBridge "!mgmt:example.org" "!foobar" "!foobar" []
      (by decide) (by decide) (by decide) (by decide) (by decide)⟩

/-- A body consisting only of white space yields no tokens. -/
theorem goFieldsAux_all_space (l : List Char) (h : ∀ c ∈ l, goIsSpace c = true) :
    goFieldsAux l [] = [] := by
  induction l with
  | nil => rfl
  | cons c cs ih =>
      have hc := h c (List.mem_cons_self c cs)
      unfold goFieldsAux
      simp only [hc, if_true, List.isEmpty_nil]
      exact ih (fun d hd => h d (List.mem_cons_of_mem c hd))

/-- C10: a command body that is empty or contains only whitespace (no
whitespace-delimited tokens) makes `User.HandleCommand` return without
sending any reply — not even the unknown-command notice. -/
theorem handleCommand_blank_body (b : BridgeState) (roomID body : String)
    (h : ∀ c ∈ body.data, goIsSpace c = true) :
    HandleCommand b roomID body = [] := by
  have hf : goFields body = [] := by
    unfold goFields
    rw [goFieldsAux_all_space body.data h]
    rfl
  unfold HandleCommand
  rw [hf]

/-- Witness for `handleCommand_blank_body` at the whitespace-only body
`"  \t"`. -/
theorem handleCommand_blank_body_witness :
    (∀ c ∈ ("  \t" : String).data, goIsSpace c = true) ∧
    HandleCommand wBridge "!mgmt:example.org" "  \t" = [] :=
  ⟨by decide, handleCommand_blank_body wBridge "!mgmt:example.org" "  \t" (by decide)⟩

/-- Number of `portal` rows with the given primary key. -/
def portalKeyCount (db : DBState) (hid : String) : Nat :=
  db.portalRows.countP (fun r => r.hostexID = hid)

/-- Number of `user` rows with the given primary key. -/
def userKeyCount (db : DBState) (mx : String) : Nat :=
  db.userRows.countP (fun r => r.mxid = mx)

/-- Number of `message` rows with the given composite primary key. -/
def messageKeyCount (db : DBState) (hid eid : String) : Nat :=
  db.messageRows.countP (fun r => r.hostexID = hid ∧ r.matrixEventID = eid)

/-- C5 counterexample: `Database.StoreMessage` is a plain `INSERT` with no
`ON CONFLICT` clause, so invoking it a second time with the same primary
key does not succeed — it fails with a uniqueness violation. -/
theorem storeMessage_second_insert_fails :
    StoreMessage emptyDB "c1" "$evt9" 5 "alice" "hi" =
      .ok ⟨[], [⟨"c1", "$evt9", 5, "alice", "hi"⟩], []⟩ ∧
    StoreMessage ⟨[], [⟨"c1", "$evt9", 5, "alice", "hi"⟩], []⟩ "c1" "$evt9" 5 "alice" "hi" =
      .error .uniqueViolation := by
  decide

/-- C5 (amended): `StorePortal` and `StoreUser` are upserts — when an
invocation succeeds, re-invoking with the same arguments succeeds again and
exactly one row for that primary key remains; `StoreMessage` is a plain
insert — a successful insert followed by a second invocation with the same
primary key fails with a uniqueness violation, leaving the single existing
row for that key; no operation removes rows (row counts never decrease).
The key-count hypotheses restate the primary-key uniqueness SQLite itself
enforces on any reachable store. -/
theorem store_writes_upsert_or_insert (db : DBState)
    (hid rid nm tp av : String) (enc : Bool)
    (eid : String) (ts : Int) (sndr ct mx uhid : String)
    (hp : portalKeyCount db hid ≤ 1) (hu : userKeyCount db mx ≤ 1) :
    (∀ db1, StorePortal db hid rid nm tp av enc = .ok db1 →
      portalKeyCount db1 hid = 1 ∧
      db.portalRows.length ≤ db1.portalRows.length ∧
      ∃ db2, StorePortal db1 hid rid nm tp av enc = .ok db2) ∧
    (∀ db1, StoreUser db mx uhid = .ok db1 →
      userKeyCount db1 mx = 1 ∧
      db.userRows.length ≤ db1.userRows.length ∧
      ∃ db2, StoreUser db1 mx uhid = .ok db2) ∧
    (∀ db1, StoreMessage db hid eid ts sndr ct = .ok db1 →
      messageKeyCount db1 hid eid = 1 ∧
      db.messageRows.length ≤ db1.messageRows.length ∧
      StoreMessage db1 hid eid ts sndr ct = .error .uniqueViolation) := by
  refine ⟨?_, ?_, ?_⟩
  · -- StorePortal
    intro db1 h
    unfold StorePortal at h
    split at h
    case isTrue hmem =>
      split at h
      case isTrue hconf => exact absurd h (by simp)
      case isFalse hconf =>
        cases h
        refine ⟨?_, by simp, ?_⟩
        · unfold portalKeyCount
          rw [List.countP_map]
          have hcnt : db.portalRows.countP
              ((fun r : PortalRow => decide (r.hostexID = hid)) ∘
                (fun r => if r.hostexID = hid then
                  (⟨hid, rid, nm, tp, av, enc⟩ : PortalRow) else r)) =
              db.portalRows.countP (fun r => decide (r.hostexID = hid)) := by
            refine List.countP_congr ?_
            intro x _
            by_cases hx : x.hostexID = hid <;> simp [hx]
          rw [hcnt]
          have hpos : 0 < db.portalRows.countP (fun r => decide (r.hostexID = hid)) := by
            rw [List.countP_pos_iff]
            rcases hmem with ⟨r, hr, hk⟩
            exact ⟨r, hr, by simpa using hk⟩
          unfold portalKeyCount at hp
          omega
        · have hmem1 : ∃ r ∈ db.portalRows.map (fun r =>
              if r.hostexID = hid then (⟨hid, rid, nm, tp, av, enc⟩ : PortalRow) else r),
              r.hostexID = hid := by
            rcases hmem with ⟨r, hr, hk⟩
            exact ⟨⟨hid, rid, nm, tp, av, enc⟩,
              List.mem_map.mpr ⟨r, hr, by simp [hk]⟩, rfl⟩
          have hconf1 : ¬ ∃ x ∈ db.portalRows.map (fun r =>
              if r.hostexID = hid then (⟨hid, rid, nm, tp, av, enc⟩ : PortalRow) else r),
              x.hostexID ≠ hid ∧ x.matrixRoomID = rid := by
            rintro ⟨x, hx, hxk, hxr⟩
            rcases List.mem_map.mp hx with ⟨r, hr, rfl⟩
            by_cases hrk : r.hostexID = hid
            · exact hxk (by simp [hrk])
            · exact hconf ⟨r, hr, hrk, by simpa [hrk] using hxr⟩
          exact ⟨_, by rw [StorePortal, if_pos hmem1, if_neg hconf1]⟩
    case isFalse hmem =>
      split at h
      case isTrue hconf => exact absurd h (by simp)
      case isFalse hconf =>
        cases h
        refine ⟨?_, by simp, ?_⟩
        · unfold portalKeyCount
          rw [List.countP_append]
          have hz : db.portalRows.countP (fun r => decide (r.hostexID = hid)) = 0 := by
            rw [List.countP_eq_zero]
            intro a ha
            simpa using fun hk => hmem ⟨a, ha, hk⟩
          rw [hz]
          simp
        · have hmem1 : ∃ r ∈ db.portalRows ++
              [(⟨hid, rid, nm, tp, av, enc⟩ : PortalRow)], r.hostexID = hid :=
            ⟨⟨hid, rid, nm, tp, av, enc⟩, by simp, rfl⟩
          have hconf1 : ¬ ∃ x ∈ db.portalRows ++
              [(⟨hid, rid, nm, tp, av, enc⟩ : PortalRow)],
              x.hostexID ≠ hid ∧ x.matrixRoomID = rid := by
            rintro ⟨x, hx, hxk, hxr⟩
            rcases List.mem_append.mp hx with hxl | hxr'
            · exact hconf ⟨x, hxl, hxr⟩
            · simp at hxr'
              exact hxk (by simp [hxr'])
          exact ⟨_, by rw [StorePortal, if_pos hmem1, if_neg hconf1]⟩
  · -- StoreUser
    intro db1 h
    unfold StoreUser at h
    split at h
    case isTrue hmem =>
      split at h
      case isTrue hconf => exact absurd h (by simp)
      case isFalse hconf =>
        cases h
        refine ⟨?_, by simp, ?_⟩
        · unfold userKeyCount
          rw [List.countP_map]
          have hcnt : db.userRows.countP
              ((fun r : UserRow => decide (r.mxid = mx)) ∘
                (fun r => if r.mxid = mx then (⟨mx, uhid⟩ : UserRow) else r)) =
              db.userRows.countP (fun r => decide (r.mxid = mx)) := by
            refine List.countP_congr ?_
            intro x _
            by_cases hx : x.mxid = mx <;> simp [hx]
          rw [hcnt]
          have hpos : 0 < db.userRows.countP (fun r => decide (r.mxid = mx)) := by
            rw [List.countP_pos_iff]
            rcases hmem with ⟨r, hr, hk⟩
            exact ⟨r, hr, by simpa using hk⟩
          unfold userKeyCount at hu
          omega
        · have hmem1 : ∃ r ∈ db.userRows.map (fun r =>
              if r.mxid = mx then (⟨mx, uhid⟩ : UserRow) else r), r.mxid = mx := by
            rcases hmem with ⟨r, hr, hk⟩
            exact ⟨⟨mx, uhid⟩, List.mem_map.mpr ⟨r, hr, by simp [hk]⟩, rfl⟩
          have hconf1 : ¬ ∃ x ∈ db.userRows.map (fun r =>
              if r.mxid = mx then (⟨mx, uhid⟩ : UserRow) else r),
              x.mxid ≠ mx ∧ x.hostexID = uhid := by
            rintro ⟨x, hx, hxk, hxr⟩
            rcases List.mem_map.mp hx with ⟨r, hr, rfl⟩
            by_cases hrk : r.mxid = mx
            · exact hxk (by simp [hrk])
            · exact hconf ⟨r, hr, hrk, by simpa [hrk] using hxr⟩
          exact ⟨_, by rw [StoreUser, if_pos hmem1, if_neg hconf1]⟩
    case isFalse hmem =>
      split at h
      case isTrue hconf => exact absurd h (by simp)
      case isFalse hconf =>
        cases h
        refine ⟨?_, by simp, ?_⟩
        · unfold userKeyCount
          rw [List.countP_append]
          have hz : db.userRows.countP (fun r => decide (r.mxid = mx)) = 0 := by
            rw [List.countP_eq_zero]
            intro a ha
            simpa using fun hk => hmem ⟨a, ha, hk⟩
          rw [hz]
          simp
        · have hmem1 : ∃ r ∈ db.userRows ++ [(⟨mx, uhid⟩ : UserRow)], r.mxid = mx :=
            ⟨⟨mx, uhid⟩, by simp, rfl⟩
          have hconf1 : ¬ ∃ x ∈ db.userRows ++ [(⟨mx, uhid⟩ : UserRow)],
              x.mxid ≠ mx ∧ x.hostexID = uhid := by
            rintro ⟨x, hx, hxk, hxr⟩
            rcases List.mem_append.mp hx with hxl | hxr'
            · exact hconf ⟨x, hxl, hxr⟩
            · simp at hxr'
              exact hxk (by simp [hxr'])
          exact ⟨_, by rw [StoreUser, if_pos hmem1, if_neg hconf1]⟩
  · -- StoreMessage
    intro db1 h
    unfold StoreMessage at h
    split at h
    case isTrue hpk => exact absurd h (by simp)
    case isFalse hpk =>
      split at h
      case isTrue heid => exact absurd h (by simp)
      case isFalse heid =>
        cases h
        refine ⟨?_, by simp, ?_⟩
        · unfold messageKeyCount
          rw [List.countP_append]
          have hz : db.messageRows.countP
              (fun r => decide (r.hostexID = hid ∧ r.matrixEventID = eid)) = 0 := by
            rw [List.countP_eq_zero]
            intro a ha
            simpa using fun h1 h2 => hpk ⟨a, ha, h1, h2⟩
          rw [hz]
          simp
        · have hmem1 : ∃ r ∈ db.messageRows ++
              [(⟨hid, eid, ts, sndr, ct⟩ : MessageRow)],
              r.hostexID = hid ∧ r.matrixEventID = eid :=
            ⟨⟨hid, eid, ts, sndr, ct⟩, by simp, rfl, rfl⟩
          rw [StoreMessage, if_pos hmem1]

/-- Witness for `store_writes_upsert_or_insert` at the empty store and
concrete rows. -/
theorem store_writes_upsert_or_insert_witness :
    portalKeyCount emptyDB "c1" ≤ 1 ∧
    userKeyCount emptyDB "@keith:example.org" ≤ 1 ∧
    ((∀ db1, StorePortal emptyDB "c1" "!r1:example.org" "airbnb - Alice"
        "Hostex conversation for Seaside Cottage" "" false = .ok db1 →
      portalKeyCount db1 "c1" = 1 ∧
      emptyDB.portalRows.length ≤ db1.portalRows.length ∧
      ∃ db2, StorePortal db1 "c1" "!r1:example.org" "airbnb - Alice"
        "Hostex conversation for Seaside Cottage" "" false = .ok db2) ∧
    (∀ db1, StoreUser emptyDB "@keith:example.org" "h1" = .ok db1 →
      userKeyCount db1 "@keith:example.org" = 1 ∧
      emptyDB.userRows.length ≤ db1.userRows.length ∧
      ∃ db2, StoreUser db1 "@keith:example.org" "h1" = .ok db2) ∧
    (∀ db1, StoreMessage emptyDB "c1" "$evt10" 5 "alice" "hi" = .ok db1 →
      messageKeyCount db1 "c1" "$evt10" = 1 ∧
      emptyDB.messageRows.length ≤ db1.messageRows.length ∧
      StoreMessage db1 "c1" "$evt10" 5 "alice" "hi" = .error .uniqueViolation)) :=
  ⟨by decide, by decide,
    store_writes_upsert_or_insert emptyDB "c1" "!r1:example.org" "airbnb - Alice"
      "Hostex conversation for Seaside Cottage" "" false "$evt10" 5 "alice" "hi"
      "@keith:example.org" "h1" (by decide) (by decide)⟩

end HostexBridge
